import Mathlib

/-!
Shallow embedding of the file_icon_provider crate: the Icon data type, the
public one-shot entry point in lib.rs, the caching FileIconProvider of
provider.rs, and the per-platform Provider structs and primitives of
src/implementation/linux.rs and src/implementation/windows.rs.
Platform calls (COM, WIC, GDI, GTK, gio) are black boxes and are modelled
as oracle records recording the responses of the OS for one call.
-/

namespace FIP

/-- Icon from lib.rs: width, height and the RGBA byte buffer
(bytes are modelled as Nat). -/
structure Icon where
  width : Nat
  height : Nat
  pixels : List Nat
  deriving DecidableEq

/-- Error enum from lib.rs. -/
inductive Error where
  | Failed
  | PathDoesNotExist
  | NullIconSize
  deriving DecidableEq

/-- Abstraction of a filesystem path as the provider observes it:
whether it exists, is a directory, is a symlink, whether
metadata().is_ok_and(mode and 0o111 != 0) holds, and the value of
Path::extension().and_then(OsStr::to_str) (no leading dot). -/
structure FsPath where
  exists_ : Bool
  isDir : Bool
  isSymlink : Bool
  execBit : Bool
  extension : Option String
  deriving DecidableEq

/-- Split a character list on the dot character, keeping empty parts,
with the semantics of String.splitOn for a one-character separator. -/
def splitOnDot : List Char → List (List Char)
  | [] => [[]]
  | c :: rest =>
    if c = '.' then [] :: splitOnDot rest
    else
      match splitOnDot rest with
      | [] => [[c]]
      | part :: parts => (c :: part) :: parts

/-- The lexical rule of Rust Path::extension applied to a plain file name:
the part after the last dot, where a single leading dot does not count;
none when there is no dot. The returned extension never contains a dot. -/
def rustExtension (fileName : String) : Option String :=
  let stripped :=
    match fileName.data with
    | '.' :: rest => rest
    | l => l
  let parts := splitOnDot stripped
  if 2 ≤ parts.length then parts.getLast?.map (fun cs => String.mk cs) else none

/-- Public one-shot get_file_icon of lib.rs lines 61 to 73: check existence
first, then the null size, then call the platform implementation and map
failure to Error.Failed. The platform implementation is the parameter prim. -/
def getFileIcon (prim : FsPath → Nat → Option Icon) (p : FsPath) (size : Nat) :
    Except Error Icon :=
  if p.exists_ = false then Except.error Error.PathDoesNotExist
  else if size = 0 then Except.error Error.NullIconSize
  else
    match prim p size with
    | some icon => Except.ok icon
    | none => Except.error Error.Failed

/-- Association list lookup modelling BTreeMap lookup. -/
def assocFind {α β : Type} [DecidableEq α] (k : α) : List (α × β) → Option β
  | [] => none
  | (k2, v) :: rest => if k2 = k then some v else assocFind k rest

/-- Insertion into a vacant entry of a BTreeMap (only ever called when the
key is absent, so prepending is a faithful model of the mapping). -/
def assocInsert {α β : Type} (k : α) (v : β) (m : List (α × β)) : List (α × β) :=
  (k, v) :: m

/-- FileIconProvider of provider.rs: a cache keyed by (size, extension)
and the converter function. -/
structure FileIconProvider (T : Type) where
  cache : List ((Nat × String) × T)
  convert : Icon → T

/-- FileIconProvider::new of provider.rs lines 35 to 40: empty cache,
stores the converter, no validation of any kind. -/
def FileIconProvider.new {T : Type} (convert : Icon → T) : FileIconProvider T :=
  ⟨[], convert⟩

/-- FileIconProvider::icon of provider.rs lines 43 to 55.  Returns the
result, the provider state after the call, and how many times the
get_icon closure (the gateway to the platform primitive) was invoked.
A path with an extension is cached under (size, extension); a failed
retrieval inserts nothing; a path without extension is never cached. -/
def FileIconProvider.icon {T : Type} (prim : FsPath → Nat → Option Icon)
    (fp : FileIconProvider T) (p : FsPath) (size : Nat) :
    Option T × FileIconProvider T × Nat :=
  match p.extension with
  | some ext =>
    match assocFind (size, ext) fp.cache with
    | some v => (some v, fp, 0)
    | none =>
      match (getFileIcon prim p size).toOption.map fp.convert with
      | some v => (some v, ⟨assocInsert (size, ext) v fp.cache, fp.convert⟩, 1)
      | none => (none, fp, 1)
  | none => ((getFileIcon prim p size).toOption.map fp.convert, fp, 1)

/-- Provider of src/implementation/linux.rs: fixed icon size, converter,
cache keyed by the extension string. -/
structure LinuxProvider (T : Type) where
  iconSize : Nat
  converter : Icon → T
  cache : List (String × T)

/-- Provider::new of src/implementation/linux.rs lines 78 to 84:
unconditionally returns Some, no size validation. -/
def LinuxProvider.new {T : Type} (iconSize : Nat) (converter : Icon → T) :
    Option (LinuxProvider T) :=
  some ⟨iconSize, converter, []⟩

/-- Provider::get_file_icon of src/implementation/linux.rs lines 86 to 112.
Directories, symlinks and paths with an executable bit call the primitive
directly; an extension equal to the literal string dot-desktop also calls
through (this literal can never equal a value of Path::extension); other
extensions are cached; a failed primitive call inserts nothing.
The third component counts invocations of the platform primitive. -/
def LinuxProvider.getFileIcon {T : Type} (prim : FsPath → Nat → Option Icon)
    (pr : LinuxProvider T) (p : FsPath) :
    Option T × LinuxProvider T × Nat :=
  if p.isDir || p.isSymlink || p.execBit then
    ((prim p pr.iconSize).map pr.converter, pr, 1)
  else
    match p.extension with
    | some ext =>
      if ext = ".desktop" then ((prim p pr.iconSize).map pr.converter, pr, 1)
      else
        match assocFind ext pr.cache with
        | some v => (some v, pr, 0)
        | none =>
          match (prim p pr.iconSize).map pr.converter with
          | some v => (some v, ⟨pr.iconSize, pr.converter, assocInsert ext v pr.cache⟩, 1)
          | none => (none, pr, 1)
    | none => ((prim p pr.iconSize).map pr.converter, pr, 1)

/-- Provider of src/implementation/windows.rs lines 189 to 193. -/
structure WindowsProvider (T : Type) where
  iconSize : Nat
  converter : Icon → T
  cache : List (String × T)

/-- Provider::new of src/implementation/windows.rs lines 196 to 203:
calls com initialize (result ignored) and unconditionally returns Some,
no size validation. -/
def WindowsProvider.new {T : Type} (iconSize : Nat) (converter : Icon → T) :
    Option (WindowsProvider T) :=
  some ⟨iconSize, converter, []⟩

/-- Provider::get_file_icon of src/implementation/windows.rs lines 205 to 226.
The two literal strings dot-exe and dot-lnk are meant to bypass the cache
but can never equal a value of Path::extension; any other extension is
cached; no extension means a direct call. The third component counts
invocations of the platform primitive. -/
def WindowsProvider.getFileIcon {T : Type} (prim : FsPath → Nat → Option Icon)
    (pr : WindowsProvider T) (p : FsPath) :
    Option T × WindowsProvider T × Nat :=
  match p.extension with
  | some ext =>
    if ext = ".exe" ∨ ext = ".lnk" then ((prim p pr.iconSize).map pr.converter, pr, 1)
    else
      match assocFind ext pr.cache with
      | some v => (some v, pr, 0)
      | none =>
        match (prim p pr.iconSize).map pr.converter with
        | some v => (some v, ⟨pr.iconSize, pr.converter, assocInsert ext v pr.cache⟩, 1)
        | none => (none, pr, 1)
  | none => ((prim p pr.iconSize).map pr.converter, pr, 1)

/-- WIC pixel format as seen by the windows implementation in lib.rs:
the two supported GUIDs and everything else. -/
inductive PixelFormat where
  | bgra
  | rgba
  | other (id : Nat)
  deriving DecidableEq

/-- Responses of the OS for one call of the windows implementation of
lib.rs lines 150 to 234: success of CoInitialize, of
SHCreateItemFromParsingName, of GetImage, of CoCreateInstance for the WIC
factory, of CreateBitmapFromHBITMAP, the result of GetPixelFormat (none
means the call itself failed), success of CopyPixels, and the bytes
CopyPixels writes into the preallocated buffer (byte at index i). -/
structure WinOracle where
  coInitOk : Bool
  shellItemOk : Bool
  getImageOk : Bool
  wicFactoryOk : Bool
  createBitmapOk : Bool
  pixelFormat : Option PixelFormat
  copyPixelsOk : Bool
  osBytes : Nat → Nat

/-- The BGRA to RGBA conversion of lib.rs lines 218 to 222 and of
src/implementation/windows.rs lines 104 to 106: for each exact chunk of
four bytes, swap bytes 0 and 2; a trailing chunk shorter than four bytes
is left untouched, as with chunks_exact_mut. -/
def swapBGRA : List Nat → List Nat
  | b :: g :: r :: a :: rest => r :: g :: b :: a :: swapBGRA rest
  | l => l

/-- Outcome of the windows implementation: Some icon, None, or a process
abort carrying the unknown pixel format. -/
inductive WinResult where
  | ok (icon : Icon)
  | failed
  | panicked (id : Nat)
  deriving DecidableEq

/-- The windows implementation of lib.rs lines 150 to 234.  Every fallible
OS step maps its failure to None (modelled as failed).  On a supported
pixel format, a buffer of size times size times 4 bytes is allocated,
CopyPixels fills it (the write cannot change its length), and for BGRA
each 4-byte chunk has bytes 0 and 2 swapped.  For any other pixel format
the code aborts the process.  The oracle encapsulates the OS responses
for the requested path, so the path itself is not a parameter. -/
def winImplGetFileIcon (o : WinOracle) (size : Nat) : WinResult :=
  if o.coInitOk = false then WinResult.failed
  else if o.shellItemOk = false then WinResult.failed
  else if o.getImageOk = false then WinResult.failed
  else if o.wicFactoryOk = false then WinResult.failed
  else if o.createBitmapOk = false then WinResult.failed
  else
    match o.pixelFormat with
    | none => WinResult.failed
    | some (PixelFormat.other id) => WinResult.panicked id
    | some pf =>
      if o.copyPixelsOk = false then WinResult.failed
      else
        let raw := (List.range (size * size * 4)).map o.osBytes
        let pixels := if pf = PixelFormat.bgra then swapBGRA raw else raw
        WinResult.ok ⟨size, size, pixels⟩

/-- Outcome of the public entry point, distinguishing a process abort
from a returned value. -/
inductive PubOutcome where
  | ok (icon : Icon)
  | err (e : Error)
  | panicked (id : Nat)
  deriving DecidableEq

/-- The public get_file_icon of lib.rs composed with the windows
implementation. -/
def getFileIconWinPub (o : WinOracle) (p : FsPath) (size : Nat) : PubOutcome :=
  if p.exists_ = false then PubOutcome.err Error.PathDoesNotExist
  else if size = 0 then PubOutcome.err Error.NullIconSize
  else
    match winImplGetFileIcon o size with
    | WinResult.ok icon => PubOutcome.ok icon
    | WinResult.failed => PubOutcome.err Error.Failed
    | WinResult.panicked id => PubOutcome.panicked id

/-- A GdkPixbuf as the linux implementation observes it: dimensions and
the byte buffer read_pixel_bytes returns. -/
structure Pixbuf where
  width : Nat
  height : Nat
  bytes : List Nat
  deriving DecidableEq

/-- Responses of the OS for one call of the linux implementation of
lib.rs lines 236 to 276: success of gtk init, of query_info, presence of
a content type, whether the gio icon casts to a ThemedIcon, presence of a
default icon theme, and for each icon name in order the result of
load_icon. -/
structure LinuxOracle where
  gtkOk : Bool
  queryInfoOk : Bool
  contentTypeOk : Bool
  isThemedIcon : Bool
  themeOk : Bool
  loadResults : List (Option Pixbuf)

/-- First successfully loaded pixbuf in icon-name order, as the for loop
of the linux implementation finds it. -/
def firstLoaded : List (Option Pixbuf) → Option Pixbuf
  | [] => none
  | some pb :: _ => some pb
  | none :: rest => firstLoaded rest

/-- Outcome of the linux implementation of lib.rs: an icon, None, or the
process abort on a non-themed icon. -/
inductive LinResult where
  | ok (icon : Icon)
  | failed
  | panicked
  deriving DecidableEq

/-- The linux implementation of lib.rs lines 236 to 276: failures of gtk
init, query_info, content_type and IconTheme default map to None; a gio
icon that is not a ThemedIcon aborts the process; otherwise the first
icon name that loads yields an Icon taking width, height and bytes
directly from the pixbuf; if none loads, None. -/
def linImplGetFileIcon (o : LinuxOracle) (_size : Nat) : LinResult :=
  if o.gtkOk = false then LinResult.failed
  else if o.queryInfoOk = false then LinResult.failed
  else if o.contentTypeOk = false then LinResult.failed
  else if o.isThemedIcon = false then LinResult.panicked
  else if o.themeOk = false then LinResult.failed
  else
    match firstLoaded o.loadResults with
    | some pb => LinResult.ok ⟨pb.width, pb.height, pb.bytes⟩
    | none => LinResult.failed

/-- The public get_file_icon of lib.rs composed with the linux
implementation; the abort is reported with id 0. -/
def getFileIconLinPub (o : LinuxOracle) (p : FsPath) (size : Nat) : PubOutcome :=
  if p.exists_ = false then PubOutcome.err Error.PathDoesNotExist
  else if size = 0 then PubOutcome.err Error.NullIconSize
  else
    match linImplGetFileIcon o size with
    | LinResult.ok icon => PubOutcome.ok icon
    | LinResult.failed => PubOutcome.err Error.Failed
    | LinResult.panicked => PubOutcome.panicked 0

/-- A reply the image factory worker thread sends on the per-request
reply channel (src/implementation/windows.rs lines 30 to 33). -/
inductive Reply where
  | success (icon : Icon)
  | failure
  deriving DecidableEq

/-- Responses of the OS for one request handled by the worker thread of
src/implementation/windows.rs: success of the per-request CoInitialize
(com initialize runs on every request, since the deferred unitialize
returns the thread-local count to zero afterwards), of
SHCreateItemFromParsingName, of GetImage, of GetObjectW, of GetDIBits,
the bitmap dimensions GetObjectW reports, and the bytes GetDIBits writes
(byte at index i). -/
structure WorkerOracle where
  coInitOk : Bool
  factoryOk : Bool
  getImageOk : Bool
  getObjectOk : Bool
  getDIBitsOk : Bool
  bmWidth : Nat
  bmHeight : Nat
  osBytes : Nat → Nat

/-- Handling of one request by the worker loop of
src/implementation/windows.rs lines 42 to 129.  First component: the list
of replies sent on the request reply channel; second component: whether
the worker thread panicked.  A failing per-request CoInitialize hits the
unwrap on com initialize and panics the worker, sending nothing; a
failing shell item or GetImage sends Failure; a failing GetObjectW or
GetDIBits hits a continue statement and sends nothing; otherwise the
BGRA buffer of stride times height bytes is swizzled to RGBA and sent as
Success with width and height both set to the requested size. -/
def workerHandle (o : WorkerOracle) (size : Nat) : List Reply × Bool :=
  if o.coInitOk = false then ([], true)
  else if o.factoryOk = false then ([Reply.failure], false)
  else if o.getImageOk = false then ([Reply.failure], false)
  else if o.getObjectOk = false then ([], false)
  else if o.getDIBitsOk = false then ([], false)
  else
    let stride := o.bmWidth * 4
    let raw := (List.range (stride * o.bmHeight)).map o.osBytes
    ([Reply.success ⟨size, size, swapBGRA raw⟩], false)

theorem assocFind_assocInsert_self {α β : Type} [DecidableEq α] (k : α) (v : β)
    (m : List (α × β)) : assocFind k (assocInsert k v m) = some v := by
  simp [assocInsert, assocFind]

theorem swapBGRA_length : ∀ l : List Nat, (swapBGRA l).length = l.length
  | [] => rfl
  | [_] => rfl
  | [_, _] => rfl
  | [_, _, _] => rfl
  | _ :: _ :: _ :: _ :: rest => by
      simp [swapBGRA, swapBGRA_length rest]

theorem firstLoaded_mem : ∀ (l : List (Option Pixbuf)) (pb : Pixbuf),
    firstLoaded l = some pb → some pb ∈ l
  | [], pb, h => by simp [firstLoaded] at h
  | some q :: rest, pb, h => by
      simp [firstLoaded] at h
      simp [h]
  | none :: rest, pb, h => by
      have hm := firstLoaded_mem rest pb (by simpa [firstLoaded] using h)
      simp [hm]

/-- C4 counterexample: the public get_file_icon checks existence before the
null size, so for a non-existent path and size 0 it returns
PathDoesNotExist, not NullIconSize as the claim states. -/
theorem c4_counterexample :
    getFileIcon (fun _ _ => none) ⟨false, false, false, false, none⟩ 0 ≠
      Except.error Error.NullIconSize ∧
    getFileIcon (fun _ _ => none) ⟨false, false, false, false, none⟩ 0 =
      Except.error Error.PathDoesNotExist :=
  ⟨by simp [getFileIcon], rfl⟩

/-- C4 amended: get_file_icon with size 0 returns NullIconSize for every
existing path; existence is validated first, so non-existent paths get
PathDoesNotExist instead. -/
theorem c4_amended (prim : FsPath → Nat → Option Icon) (p : FsPath)
    (h : p.exists_ = true) :
    getFileIcon prim p 0 = Except.error Error.NullIconSize := by
  simp [getFileIcon, h]

/-- Witness for the amended C4 at a concrete existing path. -/
theorem c4_witness :
    getFileIcon (fun _ _ => none) ⟨true, false, false, false, none⟩ 0 =
      Except.error Error.NullIconSize :=
  c4_amended (fun _ _ => none) ⟨true, false, false, false, none⟩ rfl

/-- C5 counterexample: Provider construction with icon size 0 succeeds on
both the linux and the windows backend; no constructor validates the
size, refuting the claim that construction with 0 always fails. -/
theorem c5_counterexample :
    (LinuxProvider.new 0 (fun _ => 7) : Option (LinuxProvider Nat)).isSome = true ∧
    (WindowsProvider.new 0 (fun _ => 7) : Option (WindowsProvider Nat)).isSome = true :=
  ⟨rfl, rfl⟩

/-- C5 amended: Provider::new performs no validation at all: for every
size, including 0, it returns Some provider with that size, the given
converter and an empty cache, on the linux and windows backends alike. -/
theorem c5_amended {T : Type} (size : Nat) (conv : Icon → T) :
    LinuxProvider.new size conv = some ⟨size, conv, []⟩ ∧
    WindowsProvider.new size conv = some ⟨size, conv, []⟩ :=
  ⟨rfl, rfl⟩

/-- C2 counterexample: the FileIconProvider of provider.rs keys purely on
(size, extension) with no directory or symlink check, so a directory path
with extension txt is inserted into the cache on the first call and the
second call answers from the cache with zero primitive invocations,
refuting the claim that directories are never cached. -/
theorem c2_counterexample :
    (FileIconProvider.icon (fun _ _ => some ⟨32, 32, []⟩)
        (⟨[], fun _ => 7⟩ : FileIconProvider Nat)
        ⟨true, true, false, false, some "txt"⟩ 32).2.1.cache = [((32, "txt"), 7)] ∧
    (FileIconProvider.icon (fun _ _ => some ⟨32, 32, []⟩)
        ((FileIconProvider.icon (fun _ _ => some ⟨32, 32, []⟩)
          (⟨[], fun _ => 7⟩ : FileIconProvider Nat)
          ⟨true, true, false, false, some "txt"⟩ 32).2.1)
        ⟨true, true, false, false, some "txt"⟩ 32).2.2 = 0 :=
  ⟨rfl, rfl⟩

/-- C2 amended: in the linux backend Provider, a path that is a directory,
a symlink, or carries the executable bit is never cached: the call goes
straight to the platform primitive (exactly one invocation) and the
provider state, in particular the cache, is returned unchanged, so two
consecutive calls each invoke the primitive. -/
theorem c2_amended_dirs_not_cached {T : Type} (prim : FsPath → Nat → Option Icon)
    (pr : LinuxProvider T) (p : FsPath)
    (h : (p.isDir || p.isSymlink || p.execBit) = true) :
    LinuxProvider.getFileIcon prim pr p = ((prim p pr.iconSize).map pr.converter, pr, 1) := by
  simp [LinuxProvider.getFileIcon, h]

/-- Witness for the amended C2 at a concrete directory path. -/
theorem c2_witness :
    LinuxProvider.getFileIcon (fun _ _ => none)
      (⟨32, fun _ => 7, []⟩ : LinuxProvider Nat)
      ⟨true, true, false, false, some "txt"⟩ = (none, ⟨32, fun _ => 7, []⟩, 1) :=
  c2_amended_dirs_not_cached (fun _ _ => none) ⟨32, fun _ => 7, []⟩
    ⟨true, true, false, false, some "txt"⟩ rfl

/-- C6: the windows Provider compares the extension against the literal
strings dot-exe and dot-lnk, but Path::extension never includes the dot:
a file named app.exe has extension exe, ends up in the caching branch,
is inserted into the cache, and the second call answers from the cache
with zero primitive invocations, contradicting the code comment that exe
and lnk are never cached. -/
theorem c6_exe_extension_is_cached :
    rustExtension "app.exe" = some "exe" ∧
    ¬("exe" = ".exe" ∨ "exe" = ".lnk") ∧
    (WindowsProvider.getFileIcon (fun _ _ => some ⟨32, 32, []⟩)
        (⟨32, fun _ => 7, []⟩ : WindowsProvider Nat)
        ⟨true, false, false, false, rustExtension "app.exe"⟩).2.1.cache = [("exe", 7)] ∧
    (WindowsProvider.getFileIcon (fun _ _ => some ⟨32, 32, []⟩)
        ((WindowsProvider.getFileIcon (fun _ _ => some ⟨32, 32, []⟩)
          (⟨32, fun _ => 7, []⟩ : WindowsProvider Nat)
          ⟨true, false, false, false, rustExtension "app.exe"⟩).2.1)
        ⟨true, false, false, false, rustExtension "app.exe"⟩).2.2 = 0 := by
  refine ⟨by decide, by decide, by decide, by decide⟩

/-- C10 counterexample: a request whose GetObjectW call fails (with the
per-request CoInitialize succeeding) hits the continue statement of the
worker loop and zero replies are sent on its reply channel, refuting the
claim that every handled request causes exactly one reply. -/
theorem c10_counterexample :
    (workerHandle ⟨true, true, true, false, true, 1, 1, fun _ => 0⟩ 32).1 = [] := rfl

/-- C10 amended: every request handled by the worker causes at most one
reply on its own reply channel; zero replies happen precisely when the
per-request CoInitialize fails (the unwrap panics the worker thread) or
when shell item creation and GetImage succeed but GetObjectW or
GetDIBits fails (the continue paths, where the reply sender is dropped
instead); and the worker panics exactly on the CoInitialize failure. -/
theorem c10_amended_at_most_one_reply (o : WorkerOracle) (size : Nat) :
    (workerHandle o size).1.length ≤ 1 ∧
    ((workerHandle o size).1 = [] ↔
      o.coInitOk = false ∨
        (o.factoryOk = true ∧ o.getImageOk = true ∧
          (o.getObjectOk = false ∨ o.getDIBitsOk = false))) ∧
    ((workerHandle o size).2 = true ↔ o.coInitOk = false) := by
  rcases o with ⟨ci, f, gi, go, gd, w, h, ob⟩
  cases ci <;> cases f <;> cases gi <;> cases go <;> cases gd <;> simp [workerHandle]

/-- C1: on the linux backend Provider, if two paths share the same
extension, neither is a directory, symlink or executable, the extension
is not in the exempt class, and the first call succeeds, then the second
call returns the same value with zero invocations of the platform
primitive, answering from the cache. -/
theorem c1_second_call_hits_cache {T : Type} (prim : FsPath → Nat → Option Icon)
    (pr pr1 : LinuxProvider T) (p1 p2 : FsPath) (e : String) (v : T) (n : Nat)
    (h1 : (p1.isDir || p1.isSymlink || p1.execBit) = false)
    (h2 : (p2.isDir || p2.isSymlink || p2.execBit) = false)
    (he1 : p1.extension = some e)
    (he2 : p2.extension = some e)
    (hd : ¬e = ".desktop")
    (hfst : LinuxProvider.getFileIcon prim pr p1 = (some v, pr1, n)) :
    LinuxProvider.getFileIcon prim pr1 p2 = (some v, pr1, 0) := by
  simp only [LinuxProvider.getFileIcon, h1, Bool.false_eq_true, if_false, he1,
    if_neg hd] at hfst
  simp only [LinuxProvider.getFileIcon, h2, Bool.false_eq_true, if_false, he2,
    if_neg hd]
  cases hc : assocFind e pr.cache with
  | some w =>
    rw [hc] at hfst
    simp only [Prod.mk.injEq, Option.some.injEq] at hfst
    obtain ⟨rfl, rfl, rfl⟩ := hfst
    simp [hc]
  | none =>
    rw [hc] at hfst
    cases hp : (prim p1 pr.iconSize).map pr.converter with
    | none => rw [hp] at hfst; simp at hfst
    | some w =>
      rw [hp] at hfst
      simp only [Prod.mk.injEq, Option.some.injEq] at hfst
      obtain ⟨rfl, hpr, rfl⟩ := hfst
      rw [← hpr]
      simp [assocFind_assocInsert_self]

/-- Witness for C1: a concrete provider whose cache already holds txt
answers the second call from the cache with zero primitive invocations. -/
theorem c1_witness :
    LinuxProvider.getFileIcon (fun _ _ => some ⟨32, 32, []⟩)
      (⟨32, fun _ => 7, [("txt", 7)]⟩ : LinuxProvider Nat)
      ⟨true, false, false, false, some "txt"⟩ =
      (some 7, ⟨32, fun _ => 7, [("txt", 7)]⟩, 0) :=
  c1_second_call_hits_cache (fun _ _ => some ⟨32, 32, []⟩)
    ⟨32, fun _ => 7, []⟩ ⟨32, fun _ => 7, [("txt", 7)]⟩
    ⟨true, false, false, false, some "txt"⟩ ⟨true, false, false, false, some "txt"⟩
    "txt" 7 1 rfl rfl rfl rfl (by decide) rfl

/-- C3: on the windows backend Provider, when the lookup is cacheable
(extension present, not in the exempt branch, not yet cached) and the
platform primitive fails, the call reports failure, the provider state
including the cache is exactly what it was before, and a subsequent call
for the same path invokes the primitive again. -/
theorem c3_failure_not_cached {T : Type} (prim : FsPath → Nat → Option Icon)
    (pr : WindowsProvider T) (p : FsPath) (e : String)
    (he : p.extension = some e)
    (hx : ¬(e = ".exe" ∨ e = ".lnk"))
    (hm : assocFind e pr.cache = none)
    (hf : prim p pr.iconSize = none) :
    WindowsProvider.getFileIcon prim pr p = (none, pr, 1) ∧
    (WindowsProvider.getFileIcon prim
        (WindowsProvider.getFileIcon prim pr p).2.1 p).2.2 = 1 := by
  have hone : WindowsProvider.getFileIcon prim pr p = (none, pr, 1) := by
    simp [WindowsProvider.getFileIcon, he, hx, hm, hf]
  refine ⟨hone, ?_⟩
  rw [hone]
  simp [WindowsProvider.getFileIcon, he, hx, hm, hf]

/-- Witness for C3: a concrete failing primitive leaves a concrete
provider unchanged and is invoked again on the retry. -/
theorem c3_witness :
    WindowsProvider.getFileIcon (fun _ _ => none)
      (⟨32, fun _ => 7, []⟩ : WindowsProvider Nat)
      ⟨true, false, false, false, some "txt"⟩ =
      (none, ⟨32, fun _ => 7, []⟩, 1) ∧
    (WindowsProvider.getFileIcon (fun _ _ => none)
        (WindowsProvider.getFileIcon (fun _ _ => none)
          (⟨32, fun _ => 7, []⟩ : WindowsProvider Nat)
          ⟨true, false, false, false, some "txt"⟩).2.1
        ⟨true, false, false, false, some "txt"⟩).2.2 = 1 :=
  c3_failure_not_cached (fun _ _ => none) ⟨32, fun _ => 7, []⟩
    ⟨true, false, false, false, some "txt"⟩ "txt" rfl (by decide) rfl rfl

theorem winImpl_ok_shape (o : WinOracle) (size : Nat) (icon : Icon)
    (h : winImplGetFileIcon o size = WinResult.ok icon) :
    icon.width = size ∧ icon.height = size ∧
      icon.pixels.length = size * size * 4 := by
  simp only [winImplGetFileIcon] at h
  repeat' split at h
  all_goals
    first
      | exact WinResult.noConfusion h
      | (rw [WinResult.ok.injEq] at h
         subst h
         exact ⟨rfl, rfl, by simp [swapBGRA_length]⟩)

theorem linImpl_ok_shape (o : LinuxOracle) (size : Nat) (icon : Icon)
    (h : linImplGetFileIcon o size = LinResult.ok icon) :
    ∃ pb : Pixbuf, some pb ∈ o.loadResults ∧
      icon = ⟨pb.width, pb.height, pb.bytes⟩ := by
  simp only [linImplGetFileIcon] at h
  repeat' split at h
  all_goals
    first
      | exact LinResult.noConfusion h
      | (rw [LinResult.ok.injEq] at h
         subst h
         rename_i pb hpb
         exact ⟨pb, firstLoaded_mem _ pb hpb, rfl⟩)

/-- C7: once existence and a positive size passed validation, the public
get_file_icon backed by the windows implementation returns Failed, aborts
on an unknown pixel format, or returns an Icon whose buffer has exactly
width times height times 4 bytes (the buffer is allocated at that length
and the in-place BGRA swizzle preserves it); the linux implementation
does the same provided the pixbufs the icon theme returns respect the
GdkPixbuf byte-length contract, since their bytes are passed through
verbatim. -/
theorem c7_pixels_length (o : WinOracle) (lo : LinuxOracle) (p : FsPath) (size : Nat)
    (hex : p.exists_ = true) (hs : 0 < size)
    (hpb : ∀ q : Pixbuf, some q ∈ lo.loadResults →
      q.bytes.length = q.width * q.height * 4) :
    (getFileIconWinPub o p size = PubOutcome.err Error.Failed ∨
      (∃ id, getFileIconWinPub o p size = PubOutcome.panicked id) ∨
      (∃ icon, getFileIconWinPub o p size = PubOutcome.ok icon ∧
        icon.pixels.length = icon.width * icon.height * 4)) ∧
    (getFileIconLinPub lo p size = PubOutcome.err Error.Failed ∨
      getFileIconLinPub lo p size = PubOutcome.panicked 0 ∨
      (∃ icon, getFileIconLinPub lo p size = PubOutcome.ok icon ∧
        icon.pixels.length = icon.width * icon.height * 4)) := by
  have hsz : ¬size = 0 := Nat.pos_iff_ne_zero.mp hs
  constructor
  · unfold getFileIconWinPub
    rw [hex]
    simp only [Bool.true_eq_false, if_false, if_neg hsz]
    cases hw : winImplGetFileIcon o size with
    | ok icon =>
      obtain ⟨hwi, hhe, hlen⟩ := winImpl_ok_shape o size icon hw
      exact Or.inr (Or.inr ⟨icon, rfl, by rw [hlen, hwi, hhe]⟩)
    | failed => exact Or.inl rfl
    | panicked id => exact Or.inr (Or.inl ⟨id, rfl⟩)
  · unfold getFileIconLinPub
    rw [hex]
    simp only [Bool.true_eq_false, if_false, if_neg hsz]
    cases hl : linImplGetFileIcon lo size with
    | ok icon =>
      obtain ⟨pb, hmem, rfl⟩ := linImpl_ok_shape lo size icon hl
      exact Or.inr (Or.inr ⟨_, rfl, by simpa using hpb pb hmem⟩)
    | failed => exact Or.inl rfl
    | panicked => exact Or.inr (Or.inl rfl)

/-- Witness for C7 at concrete oracles where CoInitialize and gtk init
fail, an existing path, and size 32. -/
theorem c7_witness :
    (getFileIconWinPub ⟨false, true, true, true, true, none, true, fun _ => 0⟩
        ⟨true, false, false, false, none⟩ 32 = PubOutcome.err Error.Failed ∨
      (∃ id, getFileIconWinPub ⟨false, true, true, true, true, none, true, fun _ => 0⟩
        ⟨true, false, false, false, none⟩ 32 = PubOutcome.panicked id) ∨
      (∃ icon, getFileIconWinPub ⟨false, true, true, true, true, none, true, fun _ => 0⟩
        ⟨true, false, false, false, none⟩ 32 = PubOutcome.ok icon ∧
        icon.pixels.length = icon.width * icon.height * 4)) ∧
    (getFileIconLinPub ⟨false, true, true, true, true, []⟩
        ⟨true, false, false, false, none⟩ 32 = PubOutcome.err Error.Failed ∨
      getFileIconLinPub ⟨false, true, true, true, true, []⟩
        ⟨true, false, false, false, none⟩ 32 = PubOutcome.panicked 0 ∨
      (∃ icon, getFileIconLinPub ⟨false, true, true, true, true, []⟩
        ⟨true, false, false, false, none⟩ 32 = PubOutcome.ok icon ∧
        icon.pixels.length = icon.width * icon.height * 4)) :=
  c7_pixels_length ⟨false, true, true, true, true, none, true, fun _ => 0⟩
    ⟨false, true, true, true, true, []⟩ ⟨true, false, false, false, none⟩ 32
    rfl (by decide) (by intro q hq; simp at hq)

theorem getElemOpt_cons4 {α : Type} (b g r a : α) (t : List α) (n : Nat) :
    (b :: g :: r :: a :: t)[n + 4]? = t[n]? := by
  rw [show n + 4 = n + 3 + 1 by omega, List.getElem?_cons_succ,
    show n + 3 = n + 2 + 1 by omega, List.getElem?_cons_succ,
    show n + 2 = n + 1 + 1 by omega, List.getElem?_cons_succ,
    List.getElem?_cons_succ]

theorem swapBGRA_getElem : ∀ (l : List Nat) (i : Nat), 4 * i + 3 < l.length →
    (swapBGRA l)[4 * i]? = l[4 * i + 2]? ∧
    (swapBGRA l)[4 * i + 1]? = l[4 * i + 1]? ∧
    (swapBGRA l)[4 * i + 2]? = l[4 * i]? ∧
    (swapBGRA l)[4 * i + 3]? = l[4 * i + 3]?
  | [], i, h => by simp only [List.length_nil] at h; omega
  | [_], i, h => by simp only [List.length_cons, List.length_nil] at h; omega
  | [_, _], i, h => by simp only [List.length_cons, List.length_nil] at h; omega
  | [_, _, _], i, h => by simp only [List.length_cons, List.length_nil] at h; omega
  | b :: g :: r :: a :: rest, 0, _ => by simp [swapBGRA]
  | b :: g :: r :: a :: rest, i + 1, h => by
      have hlen : 4 * i + 3 < rest.length := by
        simp only [List.length_cons] at h
        omega
      obtain ⟨ih0, ih1, ih2, ih3⟩ := swapBGRA_getElem rest i hlen
      have hsw : swapBGRA (b :: g :: r :: a :: rest) =
          r :: g :: b :: a :: swapBGRA rest := rfl
      rw [hsw]
      refine ⟨?_, ?_, ?_, ?_⟩
      · rw [show 4 * (i + 1) = 4 * i + 4 by omega, getElemOpt_cons4,
          show 4 * i + 4 + 2 = 4 * i + 2 + 4 by omega, getElemOpt_cons4]
        exact ih0
      · rw [show 4 * (i + 1) = 4 * i + 4 by omega,
          show 4 * i + 4 + 1 = 4 * i + 1 + 4 by omega, getElemOpt_cons4,
          getElemOpt_cons4]
        exact ih1
      · rw [show 4 * (i + 1) = 4 * i + 4 by omega,
          show 4 * i + 4 + 2 = 4 * i + 2 + 4 by omega, getElemOpt_cons4,
          getElemOpt_cons4]
        exact ih2
      · rw [show 4 * (i + 1) = 4 * i + 4 by omega,
          show 4 * i + 4 + 3 = 4 * i + 3 + 4 by omega, getElemOpt_cons4,
          getElemOpt_cons4]
        exact ih3

/-- C8: when the whole windows pipeline succeeds and the pixel format is
BGRA, the returned pixel buffer is swapBGRA of the native buffer, while
an RGBA-format buffer is returned unchanged; and swapBGRA is the
bit-exact per-pixel swizzle: it preserves the length and, for every
complete pixel i, moves native byte 4i+2 to position 4i and native byte
4i to position 4i+2, keeping bytes 4i+1 and 4i+3 in place. -/
theorem c8_bgra_to_rgba (o : WinOracle) (size : Nat)
    (h1 : o.coInitOk = true) (h2 : o.shellItemOk = true) (h3 : o.getImageOk = true)
    (h4 : o.wicFactoryOk = true) (h5 : o.createBitmapOk = true)
    (h6 : o.copyPixelsOk = true) :
    (o.pixelFormat = some PixelFormat.bgra →
      winImplGetFileIcon o size =
        WinResult.ok ⟨size, size,
          swapBGRA ((List.range (size * size * 4)).map o.osBytes)⟩) ∧
    (o.pixelFormat = some PixelFormat.rgba →
      winImplGetFileIcon o size =
        WinResult.ok ⟨size, size, (List.range (size * size * 4)).map o.osBytes⟩) ∧
    (∀ (raw : List Nat) (i : Nat), 4 * i + 3 < raw.length →
      (swapBGRA raw).length = raw.length ∧
      (swapBGRA raw)[4 * i]? = raw[4 * i + 2]? ∧
      (swapBGRA raw)[4 * i + 1]? = raw[4 * i + 1]? ∧
      (swapBGRA raw)[4 * i + 2]? = raw[4 * i]? ∧
      (swapBGRA raw)[4 * i + 3]? = raw[4 * i + 3]?) := by
  refine ⟨?_, ?_, ?_⟩
  · intro hpf
    simp [winImplGetFileIcon, h1, h2, h3, h4, h5, h6, hpf]
  · intro hpf
    simp [winImplGetFileIcon, h1, h2, h3, h4, h5, h6, hpf]
  · intro raw i hi
    obtain ⟨e0, e1, e2, e3⟩ := swapBGRA_getElem raw i hi
    exact ⟨swapBGRA_length raw, e0, e1, e2, e3⟩

/-- Witness for C8 at a concrete all-success BGRA oracle and size 1. -/
theorem c8_witness :
    ((⟨true, true, true, true, true, some PixelFormat.bgra, true, fun _ => 0⟩ :
        WinOracle).pixelFormat = some PixelFormat.bgra →
      winImplGetFileIcon
          ⟨true, true, true, true, true, some PixelFormat.bgra, true, fun _ => 0⟩ 1 =
        WinResult.ok ⟨1, 1,
          swapBGRA ((List.range (1 * 1 * 4)).map
            (⟨true, true, true, true, true, some PixelFormat.bgra, true, fun _ => 0⟩ :
              WinOracle).osBytes)⟩) ∧
    ((⟨true, true, true, true, true, some PixelFormat.bgra, true, fun _ => 0⟩ :
        WinOracle).pixelFormat = some PixelFormat.rgba →
      winImplGetFileIcon
          ⟨true, true, true, true, true, some PixelFormat.bgra, true, fun _ => 0⟩ 1 =
        WinResult.ok ⟨1, 1, (List.range (1 * 1 * 4)).map
          (⟨true, true, true, true, true, some PixelFormat.bgra, true, fun _ => 0⟩ :
            WinOracle).osBytes⟩) ∧
    (∀ (raw : List Nat) (i : Nat), 4 * i + 3 < raw.length →
      (swapBGRA raw).length = raw.length ∧
      (swapBGRA raw)[4 * i]? = raw[4 * i + 2]? ∧
      (swapBGRA raw)[4 * i + 1]? = raw[4 * i + 1]? ∧
      (swapBGRA raw)[4 * i + 2]? = raw[4 * i]? ∧
      (swapBGRA raw)[4 * i + 3]? = raw[4 * i + 3]?) :=
  c8_bgra_to_rgba
    ⟨true, true, true, true, true, some PixelFormat.bgra, true, fun _ => 0⟩ 1
    rfl rfl rfl rfl rfl rfl

/-- C9: once the pipeline reaches GetPixelFormat, a pixel format outside
the two supported values makes the windows implementation abort the
process carrying that format, rather than returning the failure value;
for the two supported formats the abort branch is unreachable. -/
theorem c9_panic_on_unknown_format (o : WinOracle) (size : Nat)
    (h1 : o.coInitOk = true) (h2 : o.shellItemOk = true) (h3 : o.getImageOk = true)
    (h4 : o.wicFactoryOk = true) (h5 : o.createBitmapOk = true) :
    (∀ id, o.pixelFormat = some (PixelFormat.other id) →
      winImplGetFileIcon o size = WinResult.panicked id ∧
      winImplGetFileIcon o size ≠ WinResult.failed) ∧
    (∀ pf, o.pixelFormat = some pf →
      pf = PixelFormat.bgra ∨ pf = PixelFormat.rgba →
      ∀ id, winImplGetFileIcon o size ≠ WinResult.panicked id) := by
  constructor
  · intro id hpf
    constructor
    · simp [winImplGetFileIcon, h1, h2, h3, h4, h5, hpf]
    · simp [winImplGetFileIcon, h1, h2, h3, h4, h5, hpf]
  · rintro pf hpf (rfl | rfl) id <;>
      cases hcp : o.copyPixelsOk <;>
      simp [winImplGetFileIcon, h1, h2, h3, h4, h5, hpf, hcp]

/-- Witness for C9 at a concrete oracle reporting an unknown format 99. -/
theorem c9_witness :
    ((∀ id, (⟨true, true, true, true, true, some (PixelFormat.other 99), true,
        fun _ => 0⟩ : WinOracle).pixelFormat = some (PixelFormat.other id) →
      winImplGetFileIcon
          ⟨true, true, true, true, true, some (PixelFormat.other 99), true,
            fun _ => 0⟩ 32 = WinResult.panicked id ∧
      winImplGetFileIcon
          ⟨true, true, true, true, true, some (PixelFormat.other 99), true,
            fun _ => 0⟩ 32 ≠ WinResult.failed) ∧
    (∀ pf, (⟨true, true, true, true, true, some (PixelFormat.other 99), true,
        fun _ => 0⟩ : WinOracle).pixelFormat = some pf →
      pf = PixelFormat.bgra ∨ pf = PixelFormat.rgba →
      ∀ id, winImplGetFileIcon
          ⟨true, true, true, true, true, some (PixelFormat.other 99), true,
            fun _ => 0⟩ 32 ≠ WinResult.panicked id)) :=
  c9_panic_on_unknown_format
    ⟨true, true, true, true, true, some (PixelFormat.other 99), true, fun _ => 0⟩ 32
    rfl rfl rfl rfl rfl

end FIP
